import Mathlib

/-!
Verification of the resilient connection manager (prisma-resilient-client).

The definitions below are a shallow embedding of the TypeScript sources:
* `src/utils` error helpers (`isConnectionError`, `isRetryableError`,
  `getErrorMessage`) and backoff helpers (`calculateBackoff`);
* the `ResilientPrismaClient` class (`connect`, `disconnect`,
  `ensureConnected`, `executeWithReconnect`, the periodic-refresh tick body,
  and `getConnectionStats`).

Effects are made explicit: the fallible underlying-resource primitives are
driven by `Outcome` inputs, timestamps are passed as natural numbers, and
emitted lifecycle events are collected in a returned `List Event`.
The v0.2.0 escalation features (consecutive-error hard reset and
connection-age check) are documented in the repository but their
implementation is not present in the sources; those are modelled from the
spec and clearly marked as such.
-/

namespace ResilientPrisma

/-- Model of the JavaScript values that can reach the error classifier:
`null`/`undefined`, primitives, and objects carrying optional `code` and
`message` string fields, with a flag for `instanceof Error`. -/
inductive JsValue where
  | null
  | undef
  | bool (b : Bool)
  | num (n : Int)
  | str (s : String)
  | obj (code : Option String) (message : Option String) (isError : Bool)
deriving DecidableEq

/-- JavaScript truthiness for the modelled values. -/
def truthy : JsValue → Bool
  | JsValue.null => false
  | JsValue.undef => false
  | JsValue.bool b => b
  | JsValue.num n => n != 0
  | JsValue.str s => s != ""
  | JsValue.obj _ _ _ => true

/-- Embedding of `getErrorMessage` from `src/utils`: falsy values map to
"Unknown error", strings map to themselves, `Error` instances and objects
with a `message` field yield that message, everything else is stringified. -/
def getErrorMessage (e : JsValue) : String :=
  if truthy e = false then "Unknown error"
  else
    match e with
    | JsValue.str s => s
    | JsValue.obj _ msg true => msg.getD ""
    | JsValue.obj _ (some m) false => m
    | JsValue.obj _ none false => "[object Object]"
    | JsValue.num n => toString n
    | JsValue.bool _ => "true"
    | _ => "Unknown error"

/-- The fixed Prisma connection-failure codes from `src/utils`. -/
def CONNECTION_ERROR_CODES : List String :=
  ["P1001", "P1008", "P1017", "P2024"]

/-- The connection-related keywords from `src/utils`. -/
def connectionKeywords : List String :=
  ["connection", "connect", "disconnect", "econnrefused", "etimedout",
   "enotfound", "socket", "network"]

/-- Whether the first character list is a prefix of the second. -/
def isPrefChars : List Char → List Char → Bool
  | [], _ => true
  | _ :: _, [] => false
  | a :: as, b :: bs => a == b && isPrefChars as bs

/-- Whether `needle` occurs as a contiguous run inside the second list. -/
def hasInfixChars (needle : List Char) : List Char → Bool
  | [] => needle.isEmpty
  | c :: rest => isPrefChars needle (c :: rest) || hasInfixChars needle rest

/-- ASCII lowercasing of a string, character by character (the model of
`String.prototype.toLowerCase` for the ASCII keywords involved). -/
def toLowerStr (s : String) : String :=
  String.mk (s.toList.map Char.toLower)

/-- `hay.includes needle` on strings (substring containment). -/
def strContainsSub (hay needle : String) : Bool :=
  hasInfixChars needle.toList hay.toList

/-- Embedding of `isConnectionError`: non-objects (including `null`) are not
connection errors; an object is one when its `code` is a known connection
code or its lowercased `message` contains a connection keyword. -/
def isConnectionError (e : JsValue) : Bool :=
  match e with
  | JsValue.obj code message _ =>
      (match code with
       | some c => CONNECTION_ERROR_CODES.contains c
       | none => false)
      ||
      connectionKeywords.any
        (fun k => strContainsSub (toLowerStr (message.getD "")) k)
  | _ => false

/-- Embedding of `isRetryableError`: currently all connection errors are
considered retryable. -/
def isRetryableError (e : JsValue) : Bool :=
  isConnectionError e

/-- Backoff strategies from `src/utils`. -/
inductive BackoffStrategy where
  | linear
  | exponential
deriving DecidableEq

/-- Embedding of `calculateBackoff`: exponential gives
`initialDelay * 2 ^ (attempt - 1)`, linear gives `initialDelay * attempt`,
both capped at `maxDelay`. -/
def calculateBackoff (attempt initialDelay maxDelay : Nat)
    (strategy : BackoffStrategy) : Nat :=
  let delay :=
    match strategy with
    | BackoffStrategy.exponential => initialDelay * 2 ^ (attempt - 1)
    | BackoffStrategy.linear => initialDelay * attempt
  min delay maxDelay

/-- JavaScript `n || d` for numeric configuration defaults (0 is falsy). -/
def orDefault (n d : Nat) : Nat :=
  if n = 0 then d else n

/-- JavaScript `q || d` for fractional configuration defaults (0 is falsy). -/
def orDefaultQ (q d : ℚ) : ℚ :=
  if q = 0 then d else q

/-- The `reconnect` section of the configuration. -/
structure ReconnectConfig where
  maxAttempts : Nat
  initialDelay : Nat
  maxDelay : Nat
  backoff : BackoffStrategy
deriving DecidableEq

/-- The `memory` section of the configuration. -/
structure MemoryConfig where
  autoGC : Bool
  gcThreshold : ℚ
deriving DecidableEq

/-- The mutable connection state of `ResilientPrismaClient` (field order as
declared in the class). -/
structure MgrState where
  connected : Bool
  reconnectAttempts : Nat
  totalReconnects : Nat
  lastSuccessfulConnection : Option Nat
  queryCount : Nat
  errorCount : Nat
deriving DecidableEq

/-- The lifecycle events emitted by the manager. -/
inductive Event where
  | connectEv
  | disconnectEv (e : Option JsValue)
  | reconnectEv (attempt : Nat)
  | reconnectSuccess
  | reconnectFailed (e : JsValue)
  | memoryHigh (usagePercent : ℚ)
  | gcExecuted
deriving DecidableEq

/-- Outcome of one call to a fallible underlying-resource primitive. -/
inductive Outcome where
  | ok
  | fail (e : JsValue)
deriving DecidableEq

/-- `new Error(msg)`. -/
def jsError (msg : String) : JsValue :=
  JsValue.obj none (some msg) true

/-- The message of the wrapped reconnection-exhaustion error thrown by
`ensureConnected` on the final failed attempt. -/
def wrapMsg (maxA : Nat) (e : JsValue) : String :=
  "Failed to reconnect after " ++ toString maxA ++ " attempts: "
    ++ getErrorMessage e

/-- Embedding of the private `connect()` method: on success the state becomes
connected with `lastSuccessfulConnection := now` and `reconnectAttempts := 0`
and a `connect` event is emitted; on failure the state becomes disconnected,
a `disconnect(error)` event is emitted and the error is rethrown. -/
def connect (s : MgrState) (now : Nat) (r : Outcome) :
    Except JsValue Unit × MgrState × List Event :=
  match r with
  | Outcome.ok =>
      (Except.ok (),
       { s with connected := true, lastSuccessfulConnection := some now,
                reconnectAttempts := 0 },
       [Event.connectEv])
  | Outcome.fail e =>
      (Except.error e, { s with connected := false },
       [Event.disconnectEv (some e)])

/-- Embedding of the private `disconnect()` method: whatever the underlying
`$disconnect` does, the error is swallowed and the state is forced to
disconnected; no event is emitted and no error is propagated. -/
def disconnect (s : MgrState) (_r : Outcome) :
    Except JsValue Unit × MgrState :=
  (Except.ok (), { s with connected := false })

/-- Embedding of the reconnection loop inside `ensureConnected()`.
`maxA` is the resolved `maxAttempts`, `attempt` the 1-based loop counter and
`fuel` the number of remaining loop iterations (`fuel + attempt = maxA + 1`
at every call from `ensureConnected`). Each iteration sets
`reconnectAttempts`, emits `reconnect(attempt)`, performs the cleanup
disconnect, waits the backoff delay, then attempts `connect`; success bumps
`totalReconnects` and emits `reconnect:success`, and a failure on the final
attempt emits `reconnect:failed` and throws the wrapped exhaustion error. -/
def ensureAux (cfg : ReconnectConfig) (now : Nat) (conn : Nat → Outcome)
    (maxA : Nat) :
    Nat → Nat → MgrState → Except JsValue Unit × MgrState × List Event
  | 0, _, s => (Except.ok (), s, [])
  | fuel + 1, attempt, s =>
    let s1 : MgrState := { s with reconnectAttempts := attempt, connected := false }
    let _delay := calculateBackoff attempt (orDefault cfg.initialDelay 1000)
      (orDefault cfg.maxDelay 10000) cfg.backoff
    match conn attempt with
    | Outcome.ok =>
      let s2 : MgrState :=
        { s1 with connected := true, lastSuccessfulConnection := some now,
                  reconnectAttempts := 0,
                  totalReconnects := s1.totalReconnects + 1 }
      (Except.ok (), s2,
       [Event.reconnectEv attempt, Event.connectEv, Event.reconnectSuccess])
    | Outcome.fail e =>
      if attempt = maxA then
        (Except.error (jsError (wrapMsg maxA e)), s1,
         [Event.reconnectEv attempt, Event.disconnectEv (some e),
          Event.reconnectFailed e])
      else
        let rest := ensureAux cfg now conn maxA fuel (attempt + 1) s1
        (rest.1, rest.2.1,
         Event.reconnectEv attempt :: Event.disconnectEv (some e) :: rest.2.2)

/-- Embedding of `ensureConnected()`: a no-op when already connected,
otherwise the reconnection loop over `maxAttempts = cfg.maxAttempts || 3`
attempts, with the per-attempt connect outcomes given by `conn`. -/
def ensureConnected (cfg : ReconnectConfig) (now : Nat) (conn : Nat → Outcome)
    (s : MgrState) : Except JsValue Unit × MgrState × List Event :=
  if s.connected then (Except.ok (), s, [])
  else
    let maxA := orDefault cfg.maxAttempts 3
    ensureAux cfg now conn maxA maxA 1 s

/-- The external inputs driving one `executeWithReconnect` call: the connect
outcomes for the initial `ensureConnected`, the first invocation of the
operation, the sampled heap usage and GC availability, and the connect
outcomes and operation result for the single post-reconnect retry. -/
structure ExecEnv (α : Type) where
  ensure1 : Nat → Outcome
  op1 : Except JsValue α
  heapUsage : ℚ
  gcAvailable : Bool
  ensure2 : Nat → Outcome
  op2 : Except JsValue α

/-- Embedding of the catch block of `executeWithReconnect` (after
`errorCount` was already incremented): a retryable error forces the state to
disconnected, emits `disconnect(error)`, reruns `ensureConnected` and then
retries the operation exactly once, its result propagating verbatim; a
non-retryable error is rethrown immediately. -/
def handleFailure {α : Type} (cfg : ReconnectConfig) (now : Nat)
    (env : ExecEnv α) (e : JsValue) (s : MgrState) :
    Except JsValue α × MgrState × List Event :=
  if isRetryableError e then
    let s1 : MgrState := { s with connected := false }
    let r := ensureConnected cfg now env.ensure2 s1
    match r.1 with
    | Except.error e2 =>
        (Except.error e2, r.2.1, Event.disconnectEv (some e) :: r.2.2)
    | Except.ok _ =>
      match env.op2 with
      | Except.ok v =>
          (Except.ok v, r.2.1, Event.disconnectEv (some e) :: r.2.2)
      | Except.error e2 =>
          (Except.error e2, r.2.1, Event.disconnectEv (some e) :: r.2.2)
  else
    (Except.error e, s, [])

/-- Embedding of `executeWithReconnect`: ensure connectivity, run the
operation; on success bump `queryCount` and, when `autoGC` is on and heap
usage is at or above the (defaulted) threshold, emit `memory:high` and — if
a GC primitive is available — `gc:executed`; on any failure bump
`errorCount` and enter the catch block (`handleFailure`). -/
def executeWithReconnect {α : Type} (cfg : ReconnectConfig)
    (mem : MemoryConfig) (now : Nat) (env : ExecEnv α) (s : MgrState) :
    Except JsValue α × MgrState × List Event :=
  let r0 := ensureConnected cfg now env.ensure1 s
  match r0.1 with
  | Except.error e =>
    let rc := handleFailure cfg now env e
      { r0.2.1 with errorCount := r0.2.1.errorCount + 1 }
    (rc.1, rc.2.1, r0.2.2 ++ rc.2.2)
  | Except.ok _ =>
    match env.op1 with
    | Except.ok v =>
      let s2 : MgrState := { r0.2.1 with queryCount := r0.2.1.queryCount + 1 }
      let memEvs : List Event :=
        if mem.autoGC then
          if env.heapUsage ≥ orDefaultQ mem.gcThreshold (85 / 100) then
            Event.memoryHigh (env.heapUsage * 100) ::
              (if env.gcAvailable then [Event.gcExecuted] else [])
          else []
        else []
      (Except.ok v, s2, r0.2.2 ++ memEvs)
    | Except.error e =>
      let rc := handleFailure cfg now env e
        { r0.2.1 with errorCount := r0.2.1.errorCount + 1 }
      (rc.1, rc.2.1, r0.2.2 ++ rc.2.2)

/-- The statistics snapshot returned by `getConnectionStats()`. -/
structure ConnectionStats where
  isConnected : Bool
  reconnectAttempts : Nat
  totalReconnects : Nat
  lastSuccessfulConnection : Option Nat
  uptime : Nat
  queryCount : Nat
  errorCount : Nat
deriving DecidableEq

/-- Embedding of `getConnectionStats()`: `uptime` is the time elapsed since
the last successful connection, and `0` when the manager never connected. -/
def getConnectionStats (s : MgrState) (now : Nat) : ConnectionStats :=
  let uptime :=
    match s.lastSuccessfulConnection with
    | some t => now - t
    | none => 0
  { isConnected := s.connected
    reconnectAttempts := s.reconnectAttempts
    totalReconnects := s.totalReconnects
    lastSuccessfulConnection := s.lastSuccessfulConnection
    uptime := uptime
    queryCount := s.queryCount
    errorCount := s.errorCount }

/-- Embedding of the body of one periodic-refresh tick from
`startPeriodicRefresh()`: mark disconnected, disconnect the old connection
(ignoring errors), reconnect through `ensureConnected`; on a refresh failure
the state is forced to disconnected so the next operation retries. -/
def refreshTickBody (cfg : ReconnectConfig) (now : Nat) (d : Outcome)
    (conn : Nat → Outcome) (s : MgrState) : MgrState × List Event :=
  let s1 : MgrState := { s with connected := false }
  let s2 := (disconnect s1 d).2
  let r := ensureConnected cfg now conn s2
  match r.1 with
  | Except.ok _ => (r.2.1, r.2.2)
  | Except.error _ => ({ r.2.1 with connected := false }, r.2.2)

/-- Modelled from the spec: the lifecycle counters updated by the v0.2.0
`recordOperationOutcome` (consecutive-error escalation). The implementation
of this v0.2.0 feature is documented in the repository but absent from the
sources. -/
structure EscState where
  consecutiveErrors : Nat
  queryCount : Nat
  errorCount : Nat
  totalHardResets : Nat
deriving DecidableEq

/-- Modelled from the spec: `recordOperationOutcome(success)` of v0.2.0
(absent from the sources). On success, `consecutiveErrors := 0` and
`queryCount += 1`. On a classified-recoverable failure,
`consecutiveErrors += 1` and `errorCount += 1`; when the counter reaches
`maxConsecutiveErrors` a hard reset is triggered (returned flag) and the
counter is reset to 0. -/
def recordOperationOutcome (maxConsecutiveErrors : Nat) (success : Bool)
    (s : EscState) : EscState × Bool :=
  if success then
    ({ s with consecutiveErrors := 0, queryCount := s.queryCount + 1 }, false)
  else
    let c := s.consecutiveErrors + 1
    let s1 : EscState :=
      { s with consecutiveErrors := c, errorCount := s.errorCount + 1 }
    if maxConsecutiveErrors ≤ c then
      ({ s1 with consecutiveErrors := 0,
                 totalHardResets := s1.totalHardResets + 1 }, true)
    else
      (s1, false)

/-- Iterate `k` consecutive classified-recoverable failures through
`recordOperationOutcome`, counting how many hard resets were triggered. -/
def iterateFailures (maxConsecutiveErrors : Nat) :
    Nat → EscState → EscState × Nat
  | 0, s => (s, 0)
  | k + 1, s =>
    let r1 := recordOperationOutcome maxConsecutiveErrors false s
    let r2 := iterateFailures maxConsecutiveErrors k r1.1
    (r2.1, (if r1.2 then 1 else 0) + r2.2)

/-- What a periodic refresh tick does. -/
inductive RefreshAction where
  | hardReset
  | plainRefresh
deriving DecidableEq

/-- Modelled from the spec: the v0.2.0 refresh tick first checks the
connection age (`now - lastSuccessfulConnectionAt`) against
`maxConnectionAge`; at or above the limit it performs a hard reset instead
of a plain refresh, below it it performs the plain refresh whose body is the
source `startPeriodicRefresh` tick (`refreshTickBody`). The age check and
hard reset of v0.2.0 are absent from the sources. -/
def checkedRefreshTick (cfg : ReconnectConfig)
    (maxConnectionAge now lastAt : Nat) (d : Outcome)
    (conn : Nat → Outcome) (s : MgrState) :
    RefreshAction × MgrState × List Event :=
  if maxConnectionAge ≤ now - lastAt then
    (RefreshAction.hardReset, s, [])
  else
    let r := refreshTickBody cfg now d conn s
    (RefreshAction.plainRefresh, r.1, r.2)

/-- Restatement of the classifier policy in the words of the specification:
an object is recoverable when its code is one of the four fixed
connection-failure codes or its message, compared case-insensitively,
contains one of the eight connection keywords; nothing else is. -/
def specRecoverable (e : JsValue) : Bool :=
  match e with
  | JsValue.obj code message _ =>
      code.elim false
        (fun c => ["P1001", "P1008", "P1017", "P2024"].contains c)
      ||
      ["connection", "connect", "disconnect", "econnrefused", "etimedout",
       "enotfound", "socket", "network"].any
        (fun k => strContainsSub (toLowerStr (message.getD "")) k)
  | _ => false

lemma orDefault_pos (n d : Nat) (hd : 0 < d) : 0 < orDefault n d := by
  unfold orDefault
  split <;> omega

lemma ensureConnected_noop (cfg : ReconnectConfig) (now : Nat)
    (conn : Nat → Outcome) (s : MgrState) (h : s.connected = true) :
    ensureConnected cfg now conn s = (Except.ok (), s, []) := by
  simp [ensureConnected, h]

lemma ensureConnected_first_ok (cfg : ReconnectConfig) (now : Nat)
    (conn : Nat → Outcome) (s : MgrState) (h : s.connected = false)
    (h1 : conn 1 = Outcome.ok) :
    ensureConnected cfg now conn s =
      (Except.ok (),
       { s with connected := true, lastSuccessfulConnection := some now,
                reconnectAttempts := 0,
                totalReconnects := s.totalReconnects + 1 },
       [Event.reconnectEv 1, Event.connectEv, Event.reconnectSuccess]) := by
  have hm : 0 < orDefault cfg.maxAttempts 3 := orDefault_pos _ _ (by omega)
  obtain ⟨k, hk⟩ : ∃ k, orDefault cfg.maxAttempts 3 = k + 1 :=
    ⟨orDefault cfg.maxAttempts 3 - 1, by omega⟩
  simp [ensureConnected, h, hk, ensureAux, h1]

lemma ensureAux_all_fail (cfg : ReconnectConfig) (now : Nat)
    (errf : Nat → JsValue) (m : Nat) :
    ∀ fuel attempt s, fuel + attempt = m + 1 → 1 ≤ fuel →
      (ensureAux cfg now (fun i => Outcome.fail (errf i)) m fuel attempt s).1
          = Except.error (jsError (wrapMsg m (errf m))) ∧
      (ensureAux cfg now (fun i => Outcome.fail (errf i)) m fuel attempt
          s).2.1.connected = false ∧
      Event.reconnectFailed (errf m) ∈
        (ensureAux cfg now (fun i => Outcome.fail (errf i)) m fuel attempt
          s).2.2 := by
  intro fuel
  induction fuel with
  | zero => intro attempt s _ h1; omega
  | succ k ih =>
    intro attempt s h _
    by_cases hak : attempt = m
    · subst hak
      have hk0 : k = 0 := by omega
      subst hk0
      simp [ensureAux]
    · have hrec := ih (attempt + 1)
        { s with reconnectAttempts := attempt, connected := false }
        (by omega) (by omega)
      simp only [ensureAux, hak, if_false]
      exact ⟨hrec.1, hrec.2.1, by simp [hrec.2.2]⟩

lemma wrapMsg_length (m : Nat) (e : JsValue) :
    (getErrorMessage e).length < (wrapMsg m e).length := by
  unfold wrapMsg
  rw [String.length_append, String.length_append, String.length_append]
  have h26 : ("Failed to reconnect after " : String).length = 26 := rfl
  omega

lemma jsError_wrapMsg_ne (m : Nat) (e : JsValue) :
    jsError (wrapMsg m e) ≠ e := by
  intro hEq
  have h1 : getErrorMessage (jsError (wrapMsg m e)) = getErrorMessage e := by
    rw [hEq]
  have h2 : getErrorMessage (jsError (wrapMsg m e)) = wrapMsg m e := rfl
  have h3 := wrapMsg_length m e
  rw [h2] at h1
  rw [h1] at h3
  omega

/-- The library's default reconnect configuration
(`maxAttempts 3`, `initialDelay 1000`, `maxDelay 10000`, exponential). -/
def cfg0 : ReconnectConfig := ⟨3, 1000, 10000, BackoffStrategy.exponential⟩

/-- The library's default memory configuration (`autoGC`, threshold 0.85). -/
def mem0 : MemoryConfig := ⟨true, 85 / 100⟩

/-- A connected manager with fresh counters. -/
def mgr0 : MgrState := ⟨true, 0, 0, some 0, 0, 0⟩

/-- A Prisma "server unreachable" error value. -/
def errP1001 : JsValue := JsValue.obj (some "P1001") none false

/-- Inputs for a run whose operation fails once with `P1001` and succeeds on
the single post-reconnect retry, with high sampled heap usage. -/
def envCx : ExecEnv Nat :=
  ⟨fun _ => Outcome.ok, Except.error errP1001, 9 / 10, true,
   fun _ => Outcome.ok, Except.ok 42⟩

/-- Inputs for a run whose operation succeeds on the first try, with high
sampled heap usage and an available GC primitive. -/
def envOk : ExecEnv Nat :=
  ⟨fun _ => Outcome.ok, Except.ok 7, 9 / 10, true,
   fun _ => Outcome.ok, Except.ok 7⟩

/-- C2: `calculateBackoff` returns `min (initialDelay * 2 ^ (n - 1)) maxDelay`
for the exponential strategy and `min (initialDelay * n) maxDelay` for the
linear strategy, for every attempt `n ≥ 1`; with `initialDelay = 1000`,
`maxDelay = 10000`, exponential, attempts 1..4 give 1000, 2000, 4000, 8000
and attempt 10 gives 10000. The embedding is a total pure function, so there
are no failure modes. -/
theorem calculateBackoff_formula (n i m : Nat) (hn : 1 ≤ n) :
    (calculateBackoff n i m BackoffStrategy.exponential =
        min (i * 2 ^ (n - 1)) m ∧
     calculateBackoff n i m BackoffStrategy.linear = min (i * n) m) ∧
    (calculateBackoff 1 1000 10000 BackoffStrategy.exponential = 1000 ∧
     calculateBackoff 2 1000 10000 BackoffStrategy.exponential = 2000 ∧
     calculateBackoff 3 1000 10000 BackoffStrategy.exponential = 4000 ∧
     calculateBackoff 4 1000 10000 BackoffStrategy.exponential = 8000 ∧
     calculateBackoff 10 1000 10000 BackoffStrategy.exponential = 10000) :=
  ⟨⟨rfl, rfl⟩, by decide⟩

/-- Witness for C2 at attempt 10 with the default delays. -/
theorem calculateBackoff_formula_witness :
    calculateBackoff 10 1000 10000 BackoffStrategy.exponential =
        min (1000 * 2 ^ 9) 10000 ∧
    calculateBackoff 10 1000 10000 BackoffStrategy.linear =
        min (1000 * 10) 10000 := by
  have h := calculateBackoff_formula 10 1000 10000 (by decide)
  exact ⟨h.1.1, h.1.2⟩

/-- C3: the classifier returns true exactly when the input is an object whose
code is one of P1001/P1008/P1017/P2024 or whose message contains (after
lowercasing) one of the eight connection keywords; objects with code P1001
or a message containing "ECONNREFUSED" are recoverable, while code P2002,
"Invalid input" messages, null and non-object inputs are not. -/
theorem isRetryableError_characterization :
    (∀ e, isRetryableError e = specRecoverable e) ∧
    (∀ code msg isErr,
        strContainsSub (toLowerStr msg) "econnrefused" = true →
        isRetryableError (JsValue.obj code (some msg) isErr) = true) ∧
    isRetryableError (JsValue.obj (some "P1001") none false) = true ∧
    isRetryableError (JsValue.obj none
      (some "connect ECONNREFUSED 127.0.0.1:5432") false) = true ∧
    isRetryableError (JsValue.obj (some "P2002") none false) = false ∧
    isRetryableError (JsValue.obj none (some "Invalid input") false) = false ∧
    isRetryableError JsValue.null = false ∧
    isRetryableError JsValue.undef = false ∧
    (∀ s, isRetryableError (JsValue.str s) = false) ∧
    (∀ n, isRetryableError (JsValue.num n) = false) ∧
    (∀ b, isRetryableError (JsValue.bool b) = false) := by
  refine ⟨?_, ?_, by decide, by decide, by decide, by decide, by decide,
    by decide, fun s => rfl, fun n => rfl, fun b => rfl⟩
  · intro e
    cases e <;> try rfl
    next code msg isErr => cases code <;> rfl
  · intro code msg isErr h
    simp only [isRetryableError, isConnectionError, Bool.or_eq_true]
    right
    rw [List.any_eq_true]
    exact ⟨"econnrefused", by simp [connectionKeywords], h⟩

/-- Witness for C3: a message containing "ECONNREFUSED" is recoverable. -/
theorem isRetryableError_characterization_witness :
    isRetryableError
      (JsValue.obj none (some "read ECONNREFUSED by peer") true) = true :=
  isRetryableError_characterization.2.1 none "read ECONNREFUSED by peer" true
    (by decide)

/-- C8: `disconnect()` never propagates an error and always leaves the state
disconnected, whatever the underlying primitive does; calling it twice in a
row never throws and leaves the state disconnected both times. -/
theorem disconnect_forces_disconnected (s : MgrState) (r r2 : Outcome) :
    (disconnect s r).1 = Except.ok () ∧
    (disconnect s r).2.connected = false ∧
    (disconnect (disconnect s r).2 r2).1 = Except.ok () ∧
    (disconnect (disconnect s r).2 r2).2.connected = false :=
  ⟨rfl, rfl, rfl, rfl⟩

/-- C9: `connect()` on success sets the state connected,
`lastSuccessfulConnection := now` and `reconnectAttempts := 0` and emits
`connect`; on failure it sets the state disconnected, emits
`disconnect(error)` and propagates the error unmodified without retrying. -/
theorem connect_transitions (s : MgrState) (now : Nat) (e : JsValue) :
    connect s now Outcome.ok =
      (Except.ok (),
       { s with connected := true, lastSuccessfulConnection := some now,
                reconnectAttempts := 0 },
       [Event.connectEv]) ∧
    (connect s now Outcome.ok).2.1.reconnectAttempts = 0 ∧
    connect s now (Outcome.fail e) =
      (Except.error e, { s with connected := false },
       [Event.disconnectEv (some e)]) :=
  ⟨rfl, rfl, rfl⟩

/-- C10: `getConnectionStats()` reports `uptime = 0` and a null
`lastSuccessfulConnection` for a manager that never connected, and
`uptime = now - t` once the last successful connection happened at `t`. -/
theorem getConnectionStats_uptime (s : MgrState) (now : Nat) :
    (s.lastSuccessfulConnection = none →
       (getConnectionStats s now).uptime = 0 ∧
       (getConnectionStats s now).lastSuccessfulConnection = none) ∧
    (∀ t, s.lastSuccessfulConnection = some t →
       (getConnectionStats s now).uptime = now - t ∧
       (getConnectionStats s now).lastSuccessfulConnection = some t) := by
  constructor
  · intro h
    simp [getConnectionStats, h]
  · intro t h
    simp [getConnectionStats, h]

/-- Witness for C10 on a never-connected and a connected manager. -/
theorem getConnectionStats_uptime_witness :
    (getConnectionStats ⟨false, 0, 0, none, 0, 0⟩ 99).uptime = 0 ∧
    (getConnectionStats ⟨false, 0, 0, none, 0, 0⟩ 99).lastSuccessfulConnection
        = none ∧
    (getConnectionStats ⟨true, 0, 0, some 40, 3, 1⟩ 99).uptime = 99 - 40 := by
  have h1 := (getConnectionStats_uptime ⟨false, 0, 0, none, 0, 0⟩ 99).1 rfl
  have h2 := (getConnectionStats_uptime ⟨true, 0, 0, some 40, 3, 1⟩ 99).2 40 rfl
  exact ⟨h1.1, h1.2, h2.1⟩

/-- C1: for an operation run through the interceptor from a connected
manager (the initial `ensureConnected` is then a no-op) whose operation
fails with an error `e`: if `e` is classified recoverable the manager forces
the state to disconnected, emits `disconnect(e)`, reruns `ensureConnected`
(here succeeding on its first attempt) and retries the operation exactly
once, the retry's result — success or failure — propagating verbatim with
no further retry; if `e` is not recoverable it propagates immediately, for
every possible retry input (so no retry is consulted). -/
theorem executeWithReconnect_retry_once {α : Type} (cfg : ReconnectConfig)
    (mem : MemoryConfig) (now : Nat) (env : ExecEnv α) (s : MgrState)
    (e : JsValue) (hconn : s.connected = true)
    (hop1 : env.op1 = Except.error e) :
    (isRetryableError e = true → env.ensure2 1 = Outcome.ok →
       executeWithReconnect cfg mem now env s =
         (env.op2,
          { s with connected := true, reconnectAttempts := 0,
                   totalReconnects := s.totalReconnects + 1,
                   lastSuccessfulConnection := some now,
                   errorCount := s.errorCount + 1 },
          [Event.disconnectEv (some e), Event.reconnectEv 1, Event.connectEv,
           Event.reconnectSuccess])) ∧
    (isRetryableError e = false →
       ∀ (op2a : Except JsValue α) (ens2a : Nat → Outcome),
         executeWithReconnect cfg mem now
           { env with op2 := op2a, ensure2 := ens2a } s =
           (Except.error e, { s with errorCount := s.errorCount + 1 }, [])) := by
  obtain ⟨c, ra, tr, l, q, ec⟩ := s
  have hc : c = true := hconn
  subst hc
  constructor
  · intro hr h1
    have h0 := ensureConnected_noop cfg now env.ensure1
      ⟨true, ra, tr, l, q, ec⟩ rfl
    have h2 := ensureConnected_first_ok cfg now env.ensure2
      ⟨false, ra, tr, l, q, ec + 1⟩ rfl h1
    cases hop2 : env.op2 with
    | ok v => simp [executeWithReconnect, handleFailure, hop1, hr, h0, h2, hop2]
    | error e2 =>
        simp [executeWithReconnect, handleFailure, hop1, hr, h0, h2, hop2]
  · intro hr op2a ens2a
    have h0 := ensureConnected_noop cfg now env.ensure1
      ⟨true, ra, tr, l, q, ec⟩ rfl
    simp [executeWithReconnect, handleFailure, hop1, hr, h0]

/-- Witness for C1: a run failing once with `P1001` then succeeding on the
single retry. -/
theorem executeWithReconnect_retry_once_witness :
    executeWithReconnect cfg0 mem0 7 envCx mgr0 =
      (Except.ok 42, ⟨true, 0, 1, some 7, 0, 1⟩,
       [Event.disconnectEv (some errP1001), Event.reconnectEv 1,
        Event.connectEv, Event.reconnectSuccess]) := by
  have h := executeWithReconnect_retry_once cfg0 mem0 7 envCx mgr0 errP1001
    rfl rfl
  exact h.1 (by decide) rfl

/-- C4: when every one of the `maxAttempts` connect attempts of a
reconnection run fails, `ensureConnected` emits `reconnect:failed` with the
final attempt's error and throws a wrapped error — distinct from the
underlying error — whose message names the attempt count; the manager ends
disconnected and a subsequent `ensureConnected` call can still succeed. -/
theorem ensureConnected_exhaustion (cfg : ReconnectConfig) (now : Nat)
    (errf : Nat → JsValue) (s : MgrState) (h : s.connected = false) :
    (ensureConnected cfg now (fun i => Outcome.fail (errf i)) s).1 =
        Except.error (jsError (wrapMsg (orDefault cfg.maxAttempts 3)
          (errf (orDefault cfg.maxAttempts 3)))) ∧
    (∀ e0, (ensureConnected cfg now (fun i => Outcome.fail (errf i)) s).1 =
        Except.error e0 → e0 ≠ errf (orDefault cfg.maxAttempts 3)) ∧
    Event.reconnectFailed (errf (orDefault cfg.maxAttempts 3)) ∈
      (ensureConnected cfg now (fun i => Outcome.fail (errf i)) s).2.2 ∧
    (ensureConnected cfg now (fun i => Outcome.fail (errf i)) s).2.1.connected
        = false ∧
    (∀ now2,
       (ensureConnected cfg now2 (fun _ => Outcome.ok)
         (ensureConnected cfg now (fun i => Outcome.fail (errf i)) s).2.1).1
       = Except.ok ()) := by
  have hm : 0 < orDefault cfg.maxAttempts 3 := orDefault_pos _ _ (by omega)
  have hunf : ensureConnected cfg now (fun i => Outcome.fail (errf i)) s =
      ensureAux cfg now (fun i => Outcome.fail (errf i))
        (orDefault cfg.maxAttempts 3) (orDefault cfg.maxAttempts 3) 1 s := by
    simp [ensureConnected, h]
  have key := ensureAux_all_fail cfg now errf (orDefault cfg.maxAttempts 3)
    (orDefault cfg.maxAttempts 3) 1 s (by omega) (by omega)
  refine ⟨by rw [hunf]; exact key.1, ?_, by rw [hunf]; exact key.2.2,
    by rw [hunf]; exact key.2.1, ?_⟩
  · intro e0 he0
    rw [hunf, key.1] at he0
    have : e0 = jsError (wrapMsg (orDefault cfg.maxAttempts 3)
        (errf (orDefault cfg.maxAttempts 3))) := by
      cases he0
      rfl
    rw [this]
    exact jsError_wrapMsg_ne _ _
  · intro now2
    have hpost : (ensureConnected cfg now (fun i => Outcome.fail (errf i))
        s).2.1.connected = false := by
      rw [hunf]; exact key.2.1
    rw [ensureConnected_first_ok cfg now2 (fun _ => Outcome.ok) _ hpost rfl]

/-- Witness for C4 with the default configuration and three failing
attempts. -/
theorem ensureConnected_exhaustion_witness :
    (ensureConnected cfg0 0 (fun i => Outcome.fail ((fun _ => errP1001) i))
        ⟨false, 0, 0, none, 0, 0⟩).1 =
      Except.error (jsError (wrapMsg (orDefault cfg0.maxAttempts 3)
        errP1001)) ∧
    Event.reconnectFailed errP1001 ∈
      (ensureConnected cfg0 0 (fun i => Outcome.fail ((fun _ => errP1001) i))
        ⟨false, 0, 0, none, 0, 0⟩).2.2 ∧
    (ensureConnected cfg0 0 (fun i => Outcome.fail ((fun _ => errP1001) i))
        ⟨false, 0, 0, none, 0, 0⟩).2.1.connected = false := by
  have h := ensureConnected_exhaustion cfg0 0 (fun _ => errP1001)
    ⟨false, 0, 0, none, 0, 0⟩ rfl
  exact ⟨h.1, h.2.2.1, h.2.2.2.1⟩

/-- C5 (settled against the spec-modelled v0.2.0 `recordOperationOutcome`):
with `maxConsecutiveErrors = 3`, three consecutive classified-recoverable
failures starting from a zero counter trigger exactly one hard reset and
leave the counter at 0; in general every recoverable failure below the
threshold increments `consecutiveErrors` without a reset, and a failure
reaching the threshold triggers a hard reset and resets the counter. -/
theorem recordOperationOutcome_escalation :
    (∀ s : EscState, s.consecutiveErrors = 0 →
       (iterateFailures 3 3 s).2 = 1 ∧
       (iterateFailures 3 3 s).1.consecutiveErrors = 0 ∧
       (iterateFailures 3 3 s).1.totalHardResets = s.totalHardResets + 1) ∧
    (∀ mc (s : EscState), ¬ mc ≤ s.consecutiveErrors + 1 →
       (recordOperationOutcome mc false s).1.consecutiveErrors =
           s.consecutiveErrors + 1 ∧
       (recordOperationOutcome mc false s).1.errorCount = s.errorCount + 1 ∧
       (recordOperationOutcome mc false s).2 = false) ∧
    (∀ mc (s : EscState), mc ≤ s.consecutiveErrors + 1 →
       (recordOperationOutcome mc false s).2 = true ∧
       (recordOperationOutcome mc false s).1.consecutiveErrors = 0 ∧
       (recordOperationOutcome mc false s).1.errorCount = s.errorCount + 1 ∧
       (recordOperationOutcome mc false s).1.totalHardResets =
           s.totalHardResets + 1) := by
  refine ⟨?_, ?_, ?_⟩
  · intro s hz
    simp [iterateFailures, recordOperationOutcome, hz]
  · intro mc s hlt
    simp [recordOperationOutcome, hlt]
  · intro mc s hle
    simp [recordOperationOutcome, hle]

/-- Witness for C5 starting from a zero consecutive-error counter. -/
theorem recordOperationOutcome_escalation_witness :
    (iterateFailures 3 3 ⟨0, 5, 2, 1⟩).2 = 1 ∧
    (iterateFailures 3 3 ⟨0, 5, 2, 1⟩).1.consecutiveErrors = 0 ∧
    (iterateFailures 3 3 ⟨0, 5, 2, 1⟩).1.totalHardResets = 1 + 1 := by
  have h := recordOperationOutcome_escalation.1 ⟨0, 5, 2, 1⟩ rfl
  exact ⟨h.1, h.2.1, h.2.2⟩

/-- C6 (settled against the spec-modelled v0.2.0 age check): a refresh tick
at connection age `now - lastAt ≥ maxConnectionAge` performs a hard reset
instead of a plain refresh; a tick below that age performs the plain
refresh, i.e. the source tick body (a forced disconnect followed by
`ensureConnected`), which on a first-attempt reconnect success leaves the
manager connected with the reconnection trace. -/
theorem refreshTick_age_escalation (cfg : ReconnectConfig)
    (maxAge now lastAt : Nat) (d : Outcome) (conn : Nat → Outcome)
    (s : MgrState) :
    (maxAge ≤ now - lastAt →
       (checkedRefreshTick cfg maxAge now lastAt d conn s).1 =
         RefreshAction.hardReset) ∧
    (now - lastAt < maxAge →
       (checkedRefreshTick cfg maxAge now lastAt d conn s).1 =
         RefreshAction.plainRefresh ∧
       (checkedRefreshTick cfg maxAge now lastAt d conn s).2 =
         refreshTickBody cfg now d conn s ∧
       (conn 1 = Outcome.ok →
          (checkedRefreshTick cfg maxAge now lastAt d conn s).2.1 =
            { s with connected := true, reconnectAttempts := 0,
                     totalReconnects := s.totalReconnects + 1,
                     lastSuccessfulConnection := some now } ∧
          (checkedRefreshTick cfg maxAge now lastAt d conn s).2.2 =
            [Event.reconnectEv 1, Event.connectEv,
             Event.reconnectSuccess])) := by
  constructor
  · intro hge
    simp [checkedRefreshTick, hge]
  · intro hlt
    have hnot : ¬ maxAge ≤ now - lastAt := by omega
    refine ⟨by simp [checkedRefreshTick, hnot],
      by simp [checkedRefreshTick, hnot], ?_⟩
    intro h1
    have hfo := ensureConnected_first_ok cfg now conn
      { s with connected := false } rfl h1
    constructor <;>
      simp [checkedRefreshTick, hnot, refreshTickBody, disconnect, hfo]

/-- Witness for C6: a tick at age 150 against a limit of 100 hard-resets,
one at age 10 plain-refreshes. -/
theorem refreshTick_age_escalation_witness :
    (checkedRefreshTick cfg0 100 200 50 Outcome.ok (fun _ => Outcome.ok)
        ⟨true, 0, 0, some 50, 0, 0⟩).1 = RefreshAction.hardReset ∧
    (checkedRefreshTick cfg0 100 60 50 Outcome.ok (fun _ => Outcome.ok)
        ⟨true, 0, 0, some 50, 0, 0⟩).1 = RefreshAction.plainRefresh ∧
    (checkedRefreshTick cfg0 100 60 50 Outcome.ok (fun _ => Outcome.ok)
        ⟨true, 0, 0, some 50, 0, 0⟩).2.2 =
      [Event.reconnectEv 1, Event.connectEv, Event.reconnectSuccess] := by
  have hA := (refreshTick_age_escalation cfg0 100 200 50 Outcome.ok
    (fun _ => Outcome.ok) ⟨true, 0, 0, some 50, 0, 0⟩).1 (by omega)
  have hB := (refreshTick_age_escalation cfg0 100 60 50 Outcome.ok
    (fun _ => Outcome.ok) ⟨true, 0, 0, some 50, 0, 0⟩).2 (by omega)
  exact ⟨hA, hB.1, (hB.2.2 rfl).2⟩

/-- C7 counterexample: a run whose operation fails once with a recoverable
error and succeeds on the single post-reconnect retry returns the result
directly from the catch block, with `queryCount` unchanged and no
`memory:high` or `gc:executed` event even though `autoGC` is on and the
sampled heap usage (0.9) is above the configured threshold (0.85) — refuting
the claim that the retry-success path records the outcome and samples
memory. -/
theorem execute_retry_success_no_stats_cx :
    (executeWithReconnect cfg0 mem0 5 envCx mgr0).1 = Except.ok 42 ∧
    mem0.autoGC = true ∧
    envCx.heapUsage ≥ orDefaultQ mem0.gcThreshold (85 / 100) ∧
    (executeWithReconnect cfg0 mem0 5 envCx mgr0).2.1.queryCount =
      mgr0.queryCount ∧
    Event.memoryHigh (envCx.heapUsage * 100) ∉
      (executeWithReconnect cfg0 mem0 5 envCx mgr0).2.2 ∧
    Event.gcExecuted ∉ (executeWithReconnect cfg0 mem0 5 envCx mgr0).2.2 := by
  refine ⟨rfl, rfl, ?_, rfl, by decide, by decide⟩
  norm_num [envCx, mem0, orDefaultQ]

/-- C7 (amended): an operation that succeeds on the first try has its
success recorded (`queryCount + 1`, `errorCount` unchanged) and memory
sampled before the result is returned — with `autoGC` on, usage at or above
the (defaulted) threshold emits `memory:high` and, when a GC primitive is
available, `gc:executed`, and usage below it emits nothing; the
spec-modelled v0.2.0 `recordOperationOutcome` additionally resets
`consecutiveErrors` to 0 (and bumps `queryCount`) on every success. The
original claim's post-reconnect-retry half is refuted by the
counterexample. -/
theorem execute_success_records {α : Type} (cfg : ReconnectConfig)
    (mem : MemoryConfig) (now : Nat) (env : ExecEnv α) (s : MgrState)
    (v : α) (hconn : s.connected = true) (hop : env.op1 = Except.ok v)
    (hgc : mem.autoGC = true) :
    (executeWithReconnect cfg mem now env s).1 = Except.ok v ∧
    (executeWithReconnect cfg mem now env s).2.1.queryCount =
        s.queryCount + 1 ∧
    (executeWithReconnect cfg mem now env s).2.1.errorCount = s.errorCount ∧
    (env.heapUsage ≥ orDefaultQ mem.gcThreshold (85 / 100) →
       Event.memoryHigh (env.heapUsage * 100) ∈
         (executeWithReconnect cfg mem now env s).2.2 ∧
       (env.gcAvailable = true →
          Event.gcExecuted ∈ (executeWithReconnect cfg mem now env s).2.2)) ∧
    (¬ env.heapUsage ≥ orDefaultQ mem.gcThreshold (85 / 100) →
       (executeWithReconnect cfg mem now env s).2.2 = []) ∧
    (∀ mc (es : EscState),
       (recordOperationOutcome mc true es).1.consecutiveErrors = 0 ∧
       (recordOperationOutcome mc true es).1.queryCount =
         es.queryCount + 1) := by
  have h0 := ensureConnected_noop cfg now env.ensure1 s hconn
  have hx : executeWithReconnect cfg mem now env s =
      (Except.ok v, { s with queryCount := s.queryCount + 1 },
       if env.heapUsage ≥ orDefaultQ mem.gcThreshold (85 / 100) then
         Event.memoryHigh (env.heapUsage * 100) ::
           (if env.gcAvailable then [Event.gcExecuted] else [])
       else []) := by
    simp [executeWithReconnect, h0, hop, hgc]
  refine ⟨by rw [hx], by rw [hx], by rw [hx], ?_, ?_, ?_⟩
  · intro hq
    rw [hx]
    simp only [hq, if_pos]
    constructor
    · simp
    · intro hav
      simp [hav]
  · intro hq
    rw [hx]
    simp [hq]
  · intro mc es
    simp [recordOperationOutcome]

/-- Witness for C7 (amended): a first-try success with heap usage 0.9 above
the 0.85 threshold. -/
theorem execute_success_records_witness :
    (executeWithReconnect cfg0 mem0 5 envOk mgr0).1 = Except.ok 7 ∧
    (executeWithReconnect cfg0 mem0 5 envOk mgr0).2.1.queryCount =
        mgr0.queryCount + 1 ∧
    Event.memoryHigh (envOk.heapUsage * 100) ∈
      (executeWithReconnect cfg0 mem0 5 envOk mgr0).2.2 ∧
    Event.gcExecuted ∈ (executeWithReconnect cfg0 mem0 5 envOk mgr0).2.2 ∧
    (recordOperationOutcome 3 true ⟨2, 0, 4, 0⟩).1.consecutiveErrors = 0 := by
  have h := execute_success_records cfg0 mem0 5 envOk mgr0 7 rfl rfl rfl
  have hq : envOk.heapUsage ≥ orDefaultQ mem0.gcThreshold (85 / 100) := by
    norm_num [envOk, mem0, orDefaultQ]
  exact ⟨h.1, h.2.1, (h.2.2.2.1 hq).1, (h.2.2.2.1 hq).2 rfl,
    (h.2.2.2.2.2 3 ⟨2, 0, 4, 0⟩).1⟩

end ResilientPrisma
